import Mathlib

/-
Verification of the claude-usage-status widget core (main.go, credentials.go,
credentials_darwin.go), as a shallow embedding in Lean.

Conventions of the embedding:
- Go float64 percentages are modelled as rationals (ℚ); Go int conversion of
  a float (truncation toward zero) is `intTrunc`.
- Go time.Duration is modelled as an integer number of nanoseconds (ℤ).
- External library and standard-library effects (RFC3339 parsing, JSON
  decoding, file reads, the Keychain query, the HTTP transport, lipgloss
  terminal styling) are modelled as explicit functional parameters: the
  program code translated here is exactly the branching and string
  construction that main.go and the credentials files perform around them.
- The cell-level layout of the progress bar is produced by the external
  bubbles progress library, whose source is not part of this repository;
  it is modelled from the spec (see `renderBarCells`). The color
  configuration the repository passes to that library (the WithGradient
  call and `getGradientEndColor`) is translated from main.go.
-/

/-- Go `int(x)` conversion of a float: truncation toward zero, modelled on ℚ. -/
def intTrunc (q : ℚ) : ℤ :=
  if 0 ≤ q then ⌊q⌋ else -⌊-q⌋

/-- Lowercase hexadecimal digit, as produced by Go `%x`. -/
def hexDigitChar (n : Nat) : Char :=
  if n < 10 then Char.ofNat (48 + n) else Char.ofNat (87 + n)

/-- Go `%02x` of a byte value: two lowercase hex digits, zero padded.
Faithful for 0 ≤ i ≤ 255, which covers every call site (the program only
formats components computed from a percent already clamped to [0,100]). -/
def goHexByte (i : ℤ) : String :=
  String.mk [hexDigitChar (i.toNat / 16 % 16), hexDigitChar (i.toNat % 16)]

/-- main.go: `greenColor = lipgloss.Color("#00ff00")`. -/
def greenColor : String := "#00ff00"

/-- main.go: `yellowColor = lipgloss.Color("#ffff00")`. -/
def yellowColor : String := "#ffff00"

/-- main.go: `redColor = lipgloss.Color("#ff0000")`. -/
def redColor : String := "#ff0000"

/-- main.go `getGradientEndColor`: end color interpolated from the fill
percent, `t := pct/100; r := int(255*t); g := int(255*(1-t))`, formatted
as `#%02x%02x00`. -/
def getGradientEndColor (pct : ℚ) : String :=
  let t := pct / 100
  let r := intTrunc (255 * t)
  let g := intTrunc (255 * (1 - t))
  "#" ++ goHexByte r ++ goHexByte g ++ "00"

/-- The filled bar glyph. -/
def barFilledChar : Char := Char.ofNat 9608

/-- The empty bar glyph. -/
def barEmptyChar : Char := Char.ofNat 9617

/-- Modelled from the spec: the cell-level bar layout is produced by the
external bubbles progress library (`prog.ViewAs`), whose source is not in
this repository. Per the spec, the bar has `width` character cells of which
`floor(width * percent / 100)` are filled and the rest are empty. -/
def renderBarCells (percent : ℚ) (width : Nat) : String :=
  let filled := (⌊(width : ℚ) * percent / 100⌋).toNat
  String.mk (List.replicate filled barFilledChar ++
    List.replicate (width - filled) barEmptyChar)

/-- main.go `createProgressBar`, glyph-layout projection: the percent is
clamped to [0,100] and the clamped value drives the bar fill
(`prog.ViewAs(percent / 100)`). Cell layout per `renderBarCells`. -/
def createProgressBar (percent : ℚ) (width : Nat) : String :=
  let percent := if percent > 100 then (100 : ℚ) else percent
  let percent := if percent < 0 then (0 : ℚ) else percent
  renderBarCells percent width

/-- main.go `createProgressBar`, color-configuration projection: the gradient
passed to the library is `WithGradient("#00ff00", getGradientEndColor(percent))`
with the same clamping of the percent. -/
def createProgressBarGradient (percent : ℚ) : String × String :=
  let percent := if percent > 100 then (100 : ℚ) else percent
  let percent := if percent < 0 then (0 : ℚ) else percent
  ("#00ff00", getGradientEndColor percent)

/-- main.go `getLabelStyle`: the foreground color of the percentage label,
by thresholds on the aggregate percent. -/
def getLabelStyle (percent : ℚ) : String :=
  if percent < 70 then greenColor
  else if percent < 90 then yellowColor
  else redColor

/-- Severity tier of a label color: 0 for green, 1 for yellow, 2 for red. -/
def colorTier (c : String) : Nat :=
  if c = greenColor then 0 else if c = yellowColor then 1 else 2

/-- Nanoseconds per hour (Go `time.Duration` is integer nanoseconds). -/
def nsPerHour : Nat := 3600000000000

/-- Nanoseconds per minute. -/
def nsPerMinute : Nat := 60000000000

/-- main.go `formatDuration`: negative durations render as now; otherwise
`hours := int(d.Hours())` and `minutes := int(d.Minutes()) % 60` (both
floor-truncations for nonnegative d) drive the compact rendering. -/
def formatDuration (d : ℤ) : String :=
  if d < 0 then "now"
  else
    let hours := d.toNat / nsPerHour
    let minutes := d.toNat / nsPerMinute % 60
    if 0 < hours ∧ 0 < minutes then toString hours ++ "h" ++ toString minutes ++ "m"
    else if 0 < hours then toString hours ++ "h"
    else if 0 < minutes then toString minutes ++ "m"
    else "now"

/-- main.go `formatTimeUntilReset`: `time.Parse(time.RFC3339, resetAt)` is
the Go standard library, modelled as the oracle `parseRFC3339` returning the
parsed instant in nanoseconds, or none on failure. -/
def formatTimeUntilReset (parseRFC3339 : String → Option ℤ)
    (resetAt : String) (now : ℤ) : String :=
  match parseRFC3339 resetAt with
  | none => "unknown"
  | some resetTime => formatDuration (resetTime - now)

/-- main.go `UsageBucket`. -/
structure UsageBucket where
  utilization : ℚ
  resets_at : String

/-- main.go `UsageResponse`. -/
structure UsageResponse where
  five_hour : UsageBucket
  seven_day : UsageBucket

/-- Replace only the seven-day reset timestamp of a snapshot. -/
def setSevenDayReset (u : UsageResponse) (r : String) : UsageResponse :=
  ⟨u.five_hour, ⟨u.seven_day.utilization, r⟩⟩

/-- main.go `formatStatusLine`: lipgloss `Style.Render` (terminal styling of
the label text with the chosen color) is external and modelled as the
functional parameter `styleRender`. -/
def formatStatusLine (parseRFC3339 : String → Option ℤ)
    (styleRender : String → String → String)
    (usage : UsageResponse) (now : ℤ) : String :=
  let fiveHourPct := usage.five_hour.utilization
  let sevenDayPct := usage.seven_day.utilization
  let fiveHourBar := createProgressBar fiveHourPct 10
  let sevenDayBar := createProgressBar sevenDayPct 10
  let fiveHourLabel := styleRender (getLabelStyle fiveHourPct)
    (toString (intTrunc fiveHourPct) ++ "%")
  let sevenDayLabel := styleRender (getLabelStyle sevenDayPct)
    (toString (intTrunc sevenDayPct) ++ "%")
  let fiveHourReset := formatTimeUntilReset parseRFC3339 usage.five_hour.resets_at now
  "5h " ++ fiveHourBar ++ " " ++ fiveHourLabel ++
    " │ 7d " ++ sevenDayBar ++ " " ++ sevenDayLabel ++
    " │ ⏱ " ++ fiveHourReset

/-- credentials.go `Credentials`: the nested JSON shape reduced to the one
field the program reads, `claudeAiOauth.accessToken`. -/
structure Credentials where
  accessToken : String

/-- credentials.go `getCredentialsPath`: the home directory (or none when
`os.UserHomeDir` fails, giving the empty path) joined with
`.claude/.credentials.json`. -/
def getCredentialsPath (home : Option String) : String :=
  match home with
  | none => ""
  | some h => h ++ "/.claude/.credentials.json"

/-- credentials.go `readCredentialsFromFile`: `os.ReadFile` and
`json.Unmarshal` are the Go standard library, modelled as the oracles
`readFile` (error message or file contents) and `parseCreds` (error message
or decoded Credentials). -/
def readCredentialsFromFile (home : Option String)
    (readFile : String → Except String String)
    (parseCreds : String → Except String Credentials) : Except String String :=
  let credPath := getCredentialsPath home
  if credPath = "" then .error ("could not determine home directory")
  else
    match readFile credPath with
    | .error e => .error e
    | .ok data =>
      match parseCreds data with
      | .error e => .error ("failed to parse credentials: " ++ e)
      | .ok creds =>
        if creds.accessToken = "" then .error ("no access token found in credentials")
        else .ok creds.accessToken

/-- credentials_darwin.go `readCredentialsFromKeychain`: the Keychain query
is external, modelled as `queryItem` (error message, or the list of result
data blobs); the first result's data is parsed with the same JSON shape. -/
def readCredentialsFromKeychain (queryItem : Except String (List String))
    (parseCreds : String → Except String Credentials) : Except String String :=
  match queryItem with
  | .error e => .error ("failed to query Keychain: " ++ e)
  | .ok results =>
    match results with
    | [] => .error ("no credentials found in Keychain")
    | jsonStr :: _ =>
      match parseCreds jsonStr with
      | .error e => .error ("failed to parse Keychain credentials: " ++ e)
      | .ok creds =>
        if creds.accessToken = "" then .error ("no access token found in Keychain credentials")
        else .ok creds.accessToken

/-- credentials_darwin.go `readCredentials`: file-based credentials first,
then the Keychain; when both fail, the returned error wraps the Keychain
error (the last failure). -/
def readCredentials (home : Option String)
    (readFile : String → Except String String)
    (queryItem : Except String (List String))
    (parseCreds : String → Except String Credentials) : Except String String :=
  match readCredentialsFromFile home readFile parseCreds with
  | .ok token => .ok token
  | .error _ =>
    match readCredentialsFromKeychain queryItem parseCreds with
    | .ok token => .ok token
    | .error e => .error ("credentials not found in file or Keychain: " ++ e)

/-- main.go: the HTTP request built by `http.NewRequest` plus the three
`req.Header.Set` calls. -/
structure HTTPRequest where
  method : String
  url : String
  headers : List (String × String)

/-- An HTTP response, reduced to the fields main.go reads: status code and
the fully read body. -/
structure HTTPResponse where
  statusCode : Nat
  body : String

/-- main.go `fetchUsageFromURL`, request-construction part: a GET request to
the given URL with the Accept, Authorization and anthropic-beta headers. -/
def buildUsageRequest (url token : String) : HTTPRequest :=
  { method := "GET"
    url := url
    headers := [("Accept", "application/json"),
      ("Authorization", "Bearer " ++ token),
      ("anthropic-beta", "oauth-2025-04-20")] }

/-- main.go `fetchUsageFromURL`, response-handling part: the transport
(`client.Do`) is modelled as `performHTTP`, JSON decoding of the body as
`decodeUsage`. A non-200 status yields an error carrying the status and
body; a 200 body that fails decoding yields a decode error. The single
`performHTTP` application models the single, retry-free request. -/
def fetchUsageFromURL (url token : String)
    (performHTTP : HTTPRequest → Except String HTTPResponse)
    (decodeUsage : String → Except String UsageResponse) : Except String UsageResponse :=
  let req := buildUsageRequest url token
  match performHTTP req with
  | .error e => .error ("failed to fetch usage: " ++ e)
  | .ok resp =>
    if resp.statusCode ≠ 200 then
      .error ("API returned status " ++ toString resp.statusCode ++ ": " ++ resp.body)
    else
      match decodeUsage resp.body with
      | .error e => .error ("failed to parse usage response: " ++ e)
      | .ok usage => .ok usage

/-- main.go `main`: credential resolution, then the usage fetch, then one
printed line. The result is (exit status, standard-output lines,
standard-error lines). -/
def runMain (credResult : Except String String)
    (fetchUsage : String → Except String UsageResponse)
    (parseRFC3339 : String → Option ℤ)
    (styleRender : String → String → String)
    (now : ℤ) : Nat × List String × List String :=
  match credResult with
  | .error e => (1, [], ["Error: " ++ e])
  | .ok token =>
    match fetchUsage token with
    | .error e => (1, [], ["Error: " ++ e])
    | .ok usage => (0, [formatStatusLine parseRFC3339 styleRender usage now], [])

/-- Whether `needle` occurs as a contiguous substring of `hay`. -/
def strContains (hay needle : String) : Bool :=
  (List.range (hay.data.length + 1)).any fun i => needle.data.isPrefixOf (hay.data.drop i)

/-- The number of occurrences of a character in a string. -/
def countChar (s : String) (c : Char) : Nat :=
  s.data.count c

/-- Claim C4: getLabelStyle colors the label green below 70 percent, yellow
from 70 up to (excluding) 90, and red from 90 on; across the inputs
0, 69, 70, 89, 90, 100 the severity tier is monotonically non-decreasing
and changes exactly at 70 and at 90. -/
theorem getLabelStyle_thresholds (percent : ℚ) :
    (percent < 70 → getLabelStyle percent = greenColor) ∧
    (70 ≤ percent → percent < 90 → getLabelStyle percent = yellowColor) ∧
    (90 ≤ percent → getLabelStyle percent = redColor) ∧
    getLabelStyle 0 = greenColor ∧ getLabelStyle 69 = greenColor ∧
    getLabelStyle 70 = yellowColor ∧ getLabelStyle 89 = yellowColor ∧
    getLabelStyle 90 = redColor ∧ getLabelStyle 100 = redColor ∧
    colorTier (getLabelStyle 0) = colorTier (getLabelStyle 69) ∧
    colorTier (getLabelStyle 69) < colorTier (getLabelStyle 70) ∧
    colorTier (getLabelStyle 70) = colorTier (getLabelStyle 89) ∧
    colorTier (getLabelStyle 89) < colorTier (getLabelStyle 90) ∧
    colorTier (getLabelStyle 90) = colorTier (getLabelStyle 100) := by
  have hg0 : getLabelStyle 0 = greenColor := by norm_num [getLabelStyle]
  have hg69 : getLabelStyle 69 = greenColor := by norm_num [getLabelStyle]
  have hy70 : getLabelStyle 70 = yellowColor := by norm_num [getLabelStyle]
  have hy89 : getLabelStyle 89 = yellowColor := by norm_num [getLabelStyle]
  have hr90 : getLabelStyle 90 = redColor := by norm_num [getLabelStyle]
  have hr100 : getLabelStyle 100 = redColor := by norm_num [getLabelStyle]
  refine ⟨?_, ?_, ?_, hg0, hg69, hy70, hy89, hr90, hr100, ?_, ?_, ?_, ?_, ?_⟩
  · intro h
    simp only [getLabelStyle, if_pos h]
  · intro h1 h2
    simp only [getLabelStyle, if_neg (not_lt.mpr h1), if_pos h2]
  · intro h
    have h70 : ¬ percent < 70 := not_lt.mpr (by linarith)
    have h90 : ¬ percent < 90 := not_lt.mpr (by linarith)
    simp only [getLabelStyle, if_neg h70, if_neg h90]
  · rw [hg0, hg69]
  · rw [hg69, hy70]; decide
  · rw [hy70, hy89]
  · rw [hy89, hr90]; decide
  · rw [hr90, hr100]

/-- Claim C4 instance: at 50 percent the label is green. -/
theorem getLabelStyle_thresholds_example : getLabelStyle 50 = greenColor :=
  (getLabelStyle_thresholds 50).1 (by norm_num)

/-- Claim C6: for percents outside [0,100] the rendered bar (glyph layout
and gradient color configuration alike) equals the bar at the nearest
boundary; clamping is silent, never an error. -/
theorem createProgressBar_clamped (percent : ℚ) (width : Nat) :
    (percent < 0 → createProgressBar percent width = createProgressBar 0 width ∧
      createProgressBarGradient percent = createProgressBarGradient 0) ∧
    (100 < percent → createProgressBar percent width = createProgressBar 100 width ∧
      createProgressBarGradient percent = createProgressBarGradient 100) := by
  constructor
  · intro h
    have h100 : ¬ percent > 100 := by push_neg; linarith
    constructor
    · simp only [createProgressBar, if_neg h100, if_pos h]
      norm_num
    · simp only [createProgressBarGradient, if_neg h100, if_pos h]
      norm_num
  · intro h
    have h0 : ¬ (100 : ℚ) < 0 := by norm_num
    constructor
    · simp only [createProgressBar, if_pos h, if_neg h0]
      norm_num
    · simp only [createProgressBarGradient, if_pos h, if_neg h0]
      norm_num

/-- Claim C6 instance: minus five and one hundred fifty clamp to the
boundary bars. -/
theorem createProgressBar_clamped_example :
    createProgressBar (-5) 10 = createProgressBar 0 10 ∧
    createProgressBar 150 10 = createProgressBar 100 10 :=
  ⟨((createProgressBar_clamped (-5) 10).1 (by norm_num)).1,
   ((createProgressBar_clamped 150 10).2 (by norm_num)).1⟩

/-- Claim C1 fails on the code: the gradient configuration of the bar is
not a fixed, position-indexed palette; its end color is interpolated from
the overall percent, so the coloring differs between 50 percent and 100
percent even on cells at the same positions. -/
theorem createProgressBarGradient_depends_on_percent :
    (createProgressBarGradient 50).2 = "#7f7f00" ∧
    (createProgressBarGradient 100).2 = "#ff0000" ∧
    createProgressBarGradient 50 ≠ createProgressBarGradient 100 := by
  have hc50 : createProgressBarGradient 50 = ("#00ff00", getGradientEndColor 50) := by
    norm_num [createProgressBarGradient]
  have hc100 : createProgressBarGradient 100 = ("#00ff00", getGradientEndColor 100) := by
    norm_num [createProgressBarGradient]
  have h50 : getGradientEndColor 50 = "#7f7f00" := by
    have h1 : intTrunc (255 * ((50 : ℚ) / 100)) = 127 := by norm_num [intTrunc]
    have h2 : intTrunc (255 * (1 - (50 : ℚ) / 100)) = 127 := by norm_num [intTrunc]
    simp only [getGradientEndColor, h1, h2]
    decide
  have h100 : getGradientEndColor 100 = "#ff0000" := by
    have h1 : intTrunc (255 * ((100 : ℚ) / 100)) = 255 := by norm_num [intTrunc]
    have h2 : intTrunc (255 * (1 - (100 : ℚ) / 100)) = 0 := by norm_num [intTrunc]
    simp only [getGradientEndColor, h1, h2]
    decide
  refine ⟨by rw [hc50]; exact h50, by rw [hc100]; exact h100, ?_⟩
  intro heq
  have hsnd := congrArg Prod.snd heq
  rw [hc50, hc100] at hsnd
  simp only at hsnd
  rw [h50, h100] at hsnd
  exact absurd hsnd (by decide)

/-- Claim C1 (amended): for every percent in [0,100] the bar's color
configuration is a two-color gradient whose start is fixed green #00ff00
and whose end is interpolated from the overall percent, the byte components
being the Go int truncations of 255·(percent/100) and 255·(1−percent/100). -/
theorem createProgressBarGradient_scaled (percent : ℚ)
    (h0 : 0 ≤ percent) (h1 : percent ≤ 100) :
    createProgressBarGradient percent =
      ("#00ff00",
        "#" ++ goHexByte (intTrunc (255 * (percent / 100))) ++
          goHexByte (intTrunc (255 * (1 - percent / 100))) ++ "00") := by
  have hng : ¬ percent > 100 := not_lt.mpr h1
  have hnl : ¬ percent < 0 := not_lt.mpr h0
  simp only [createProgressBarGradient, if_neg hng, if_neg hnl, getGradientEndColor]

/-- Claim C1 amended-instance: at 50 percent the configured gradient runs
from pure green to the half-way olive color. -/
theorem createProgressBarGradient_scaled_at_fifty :
    createProgressBarGradient 50 = ("#00ff00", "#7f7f00") := by
  have h := createProgressBarGradient_scaled 50 (by norm_num) (by norm_num)
  rw [h]
  have h1 : intTrunc (255 * ((50 : ℚ) / 100)) = 127 := by norm_num [intTrunc]
  have h2 : intTrunc (255 * (1 - (50 : ℚ) / 100)) = 127 := by norm_num [intTrunc]
  rw [h1, h2]
  decide

/-- Claim C2: an unparseable reset timestamp renders as unknown; a reset at
or before now renders as now; otherwise with H the floor-truncated whole
hours and M the whole minutes modulo 60 of the remaining duration, the
rendering is H h M m when both are nonzero, H h when only hours, M m when
only minutes, and now when both are zero. -/
theorem formatTimeUntilReset_cases (parseRFC3339 : String → Option ℤ)
    (s : String) (now : ℤ) :
    (parseRFC3339 s = none → formatTimeUntilReset parseRFC3339 s now = "unknown") ∧
    (∀ t, parseRFC3339 s = some t → t ≤ now →
      formatTimeUntilReset parseRFC3339 s now = "now") ∧
    (∀ t, parseRFC3339 s = some t → now < t →
      ((0 < (t - now).toNat / nsPerHour → 0 < (t - now).toNat / nsPerMinute % 60 →
        formatTimeUntilReset parseRFC3339 s now =
          toString ((t - now).toNat / nsPerHour) ++ "h" ++
            toString ((t - now).toNat / nsPerMinute % 60) ++ "m") ∧
       (0 < (t - now).toNat / nsPerHour → (t - now).toNat / nsPerMinute % 60 = 0 →
        formatTimeUntilReset parseRFC3339 s now =
          toString ((t - now).toNat / nsPerHour) ++ "h") ∧
       ((t - now).toNat / nsPerHour = 0 → 0 < (t - now).toNat / nsPerMinute % 60 →
        formatTimeUntilReset parseRFC3339 s now =
          toString ((t - now).toNat / nsPerMinute % 60) ++ "m") ∧
       ((t - now).toNat / nsPerHour = 0 → (t - now).toNat / nsPerMinute % 60 = 0 →
        formatTimeUntilReset parseRFC3339 s now = "now"))) := by
  refine ⟨?_, ?_, ?_⟩
  · intro h
    simp [formatTimeUntilReset, h]
  · intro t ht hle
    by_cases hneg : t - now < 0
    · simp [formatTimeUntilReset, ht, formatDuration, hneg]
    · have hd0 : (t - now).toNat = 0 := Int.toNat_of_nonpos (by omega)
      simp [formatTimeUntilReset, ht, formatDuration, hneg, hd0]
  · intro t ht hgt
    have hneg : ¬ (t - now < 0) := by omega
    simp only [formatTimeUntilReset, ht, formatDuration, if_neg hneg]
    set H := (t - now).toNat / nsPerHour with hHdef
    set M := (t - now).toNat / nsPerMinute % 60 with hMdef
    refine ⟨?_, ?_, ?_, ?_⟩
    · intro h1 h2
      rw [if_pos ⟨h1, h2⟩]
    · intro h1 h2
      rw [if_neg (by omega : ¬ (0 < H ∧ 0 < M)), if_pos h1]
    · intro h1 h2
      rw [if_neg (by omega : ¬ (0 < H ∧ 0 < M)), if_neg (by omega : ¬ 0 < H), if_pos h2]
    · intro h1 h2
      rw [if_neg (by omega : ¬ (0 < H ∧ 0 < M)), if_neg (by omega : ¬ 0 < H),
        if_neg (by omega : ¬ 0 < M)]

/-- Claim C2 instance: a reset two hours and fifteen minutes in the future
renders as 2h15m. -/
theorem formatTimeUntilReset_cases_example :
    formatTimeUntilReset (fun _ => some (8100000000000 : ℤ)) ("r") 0 = "2h15m" := by
  have h := ((formatTimeUntilReset_cases (fun _ => some (8100000000000 : ℤ)) ("r")
    0).2.2 8100000000000 rfl (by norm_num)).1 (by decide) (by decide)
  exact h.trans (by decide)

/-- Claim C5: for every percent in [0,100] the rendered bar has exactly
width character cells, of which exactly the floor of width times percent
over one hundred are filled and the remaining cells are empty. -/
theorem createProgressBar_cells (percent : ℚ) (width : Nat)
    (h0 : 0 ≤ percent) (h1 : percent ≤ 100) :
    (createProgressBar percent width).length = width ∧
    countChar (createProgressBar percent width) barFilledChar =
      (⌊(width : ℚ) * percent / 100⌋).toNat ∧
    countChar (createProgressBar percent width) barEmptyChar =
      width - (⌊(width : ℚ) * percent / 100⌋).toNat := by
  have hng : ¬ percent > 100 := not_lt.mpr h1
  have hnl : ¬ percent < 0 := not_lt.mpr h0
  have hbar : createProgressBar percent width = renderBarCells percent width := by
    simp only [createProgressBar, if_neg hng, if_neg hnl]
  have hfle : (⌊(width : ℚ) * percent / 100⌋).toNat ≤ width := by
    have hq : (width : ℚ) * percent / 100 ≤ (width : ℚ) := by
      rw [div_le_iff₀ (by norm_num : (0 : ℚ) < 100)]
      have hmul := mul_le_mul_of_nonneg_left h1 (by positivity : (0 : ℚ) ≤ (width : ℚ))
      linarith
    have hfl : ⌊(width : ℚ) * percent / 100⌋ ≤ ⌊(width : ℚ)⌋ := Int.floor_le_floor hq
    rw [Int.floor_natCast] at hfl
    omega
  have hneq : (barFilledChar == barEmptyChar) = false := by decide
  have hneq2 : (barEmptyChar == barFilledChar) = false := by decide
  rw [hbar]
  simp only [renderBarCells]
  have hlen : ∀ l : List Char, (String.mk l).length = l.length := fun _ => rfl
  refine ⟨?_, ?_, ?_⟩
  · rw [hlen]
    simp only [List.length_append, List.length_replicate]
    omega
  · simp [countChar, List.count_append, List.count_replicate_self,
      List.count_replicate, hneq, hneq2]
  · simp [countChar, List.count_append, List.count_replicate_self,
      List.count_replicate, hneq, hneq2]

/-- Claim C5 instance: at 45 percent a width-10 bar has 10 cells, 4 filled
and 6 empty. -/
theorem createProgressBar_cells_example :
    (createProgressBar 45 10).length = 10 ∧
    countChar (createProgressBar 45 10) barFilledChar = 4 ∧
    countChar (createProgressBar 45 10) barEmptyChar = 6 := by
  have h := createProgressBar_cells 45 10 (by norm_num) (by norm_num)
  have hfour : (⌊((10 : Nat) : ℚ) * 45 / 100⌋).toNat = 4 := by
    norm_num
    decide
  rw [hfour] at h
  exact h

/-- Claim C3 (amended): credential resolution on the keychain platform
tries the file source first and falls back to the Keychain, returning the
first token that parses with a non-blank accessToken; a missing file, a
malformed JSON body and a blank token are each errors; when every source
fails the composed error identifies the last failure (the Keychain error)
and names both attempted sources, but not the attempted credentials-file
path. -/
theorem readCredentials_chain (home : Option String)
    (readFile : String → Except String String)
    (queryItem : Except String (List String))
    (parseCreds : String → Except String Credentials) :
    (∀ t, readCredentialsFromFile home readFile parseCreds = .ok t →
      readCredentials home readFile queryItem parseCreds = .ok t) ∧
    (∀ e t, readCredentialsFromFile home readFile parseCreds = .error e →
      readCredentialsFromKeychain queryItem parseCreds = .ok t →
      readCredentials home readFile queryItem parseCreds = .ok t) ∧
    (∀ e, getCredentialsPath home ≠ "" →
      readFile (getCredentialsPath home) = .error e →
      readCredentialsFromFile home readFile parseCreds = .error e) ∧
    (∀ data e, getCredentialsPath home ≠ "" →
      readFile (getCredentialsPath home) = .ok data →
      parseCreds data = .error e →
      readCredentialsFromFile home readFile parseCreds =
        .error ("failed to parse credentials: " ++ e)) ∧
    (∀ data creds, getCredentialsPath home ≠ "" →
      readFile (getCredentialsPath home) = .ok data →
      parseCreds data = .ok creds → creds.accessToken = "" →
      readCredentialsFromFile home readFile parseCreds =
        .error ("no access token found in credentials")) ∧
    (∀ data creds, getCredentialsPath home ≠ "" →
      readFile (getCredentialsPath home) = .ok data →
      parseCreds data = .ok creds → creds.accessToken ≠ "" →
      readCredentialsFromFile home readFile parseCreds = .ok creds.accessToken) ∧
    (∀ jsonStr rest e, queryItem = .ok (jsonStr :: rest) →
      parseCreds jsonStr = .error e →
      readCredentialsFromKeychain queryItem parseCreds =
        .error ("failed to parse Keychain credentials: " ++ e)) ∧
    (∀ jsonStr rest creds, queryItem = .ok (jsonStr :: rest) →
      parseCreds jsonStr = .ok creds → creds.accessToken = "" →
      readCredentialsFromKeychain queryItem parseCreds =
        .error ("no access token found in Keychain credentials")) ∧
    (∀ jsonStr rest creds, queryItem = .ok (jsonStr :: rest) →
      parseCreds jsonStr = .ok creds → creds.accessToken ≠ "" →
      readCredentialsFromKeychain queryItem parseCreds = .ok creds.accessToken) ∧
    (∀ e₁ e₂, readCredentialsFromFile home readFile parseCreds = .error e₁ →
      readCredentialsFromKeychain queryItem parseCreds = .error e₂ →
      readCredentials home readFile queryItem parseCreds =
        .error ("credentials not found in file or Keychain: " ++ e₂)) := by
  refine ⟨?_, ?_, ?_, ?_, ?_, ?_, ?_, ?_, ?_, ?_⟩
  · intro t h
    simp [readCredentials, h]
  · intro e t h1 h2
    simp [readCredentials, h1, h2]
  · intro e hpath hread
    simp [readCredentialsFromFile, hpath, hread]
  · intro data e hpath hread hparse
    simp [readCredentialsFromFile, hpath, hread, hparse]
  · intro data creds hpath hread hparse htok
    simp [readCredentialsFromFile, hpath, hread, hparse, htok]
  · intro data creds hpath hread hparse htok
    simp [readCredentialsFromFile, hpath, hread, hparse, htok]
  · intro jsonStr rest e hquery hparse
    simp [readCredentialsFromKeychain, hquery, hparse]
  · intro jsonStr rest creds hquery hparse htok
    simp [readCredentialsFromKeychain, hquery, hparse, htok]
  · intro jsonStr rest creds hquery hparse htok
    simp [readCredentialsFromKeychain, hquery, hparse, htok]
  · intro e₁ e₂ h1 h2
    simp [readCredentials, h1, h2]

/-- Claim C3 amended-instance: when the file source fails, a non-blank
token from the Keychain is returned (the fallback succeeds), and a blank
token in a well-formed credentials file is an error. -/
theorem readCredentials_chain_example :
    readCredentials (some ("/u")) (fun _ => Except.error ("no such file"))
      (Except.ok ["j"]) (fun _ => Except.ok ⟨"tok"⟩) = Except.ok ("tok") ∧
    readCredentialsFromFile (some ("/u")) (fun _ => Except.ok ("j"))
      (fun _ => Except.ok ⟨""⟩) =
      Except.error ("no access token found in credentials") :=
  ⟨(readCredentials_chain (some ("/u")) (fun _ => Except.error ("no such file"))
      (Except.ok ["j"]) (fun _ => Except.ok ⟨"tok"⟩)).2.1 ("no such file") ("tok")
      rfl rfl,
   (readCredentials_chain (some ("/u")) (fun _ => Except.ok ("j"))
      (Except.error ("k")) (fun _ => Except.ok ⟨""⟩)).2.2.2.2.1 ("j") ⟨""⟩
      (by decide) rfl rfl rfl⟩

/-- Claim C3 fails as stated on the code: when every source fails on the
keychain platform, the composed error wraps only the Keychain failure; the
attempted credentials-file path appears nowhere in it. -/
theorem readCredentials_error_omits_path :
    readCredentials (some ("/u")) (fun _ => Except.error ("no such file"))
      (Except.error ("item not found")) (fun _ => Except.error ("bad json")) =
      Except.error
        ("credentials not found in file or Keychain: failed to query Keychain: item not found") ∧
    strContains
      ("credentials not found in file or Keychain: failed to query Keychain: item not found")
      (getCredentialsPath (some ("/u"))) = false := by
  constructor
  · rfl
  · decide

/-- Claim C7: the usage fetch builds one GET request carrying exactly the
Accept, Authorization bearer-token and fixed anthropic-beta headers; a
non-2xx response yields an error capturing the status code and the body,
with no retry; a 200 response whose body fails decoding yields a decode
error. -/
theorem fetchUsageFromURL_request_and_errors (url token : String)
    (performHTTP : HTTPRequest → Except String HTTPResponse)
    (decodeUsage : String → Except String UsageResponse) :
    (buildUsageRequest url token).method = "GET" ∧
    (buildUsageRequest url token).headers =
      [("Accept", "application/json"),
       ("Authorization", "Bearer " ++ token),
       ("anthropic-beta", "oauth-2025-04-20")] ∧
    (∀ resp, performHTTP (buildUsageRequest url token) = .ok resp →
      resp.statusCode < 200 ∨ 300 ≤ resp.statusCode →
      fetchUsageFromURL url token performHTTP decodeUsage =
        .error ("API returned status " ++ toString resp.statusCode ++ ": " ++ resp.body)) ∧
    (∀ resp e, performHTTP (buildUsageRequest url token) = .ok resp →
      resp.statusCode = 200 → decodeUsage resp.body = .error e →
      fetchUsageFromURL url token performHTTP decodeUsage =
        .error ("failed to parse usage response: " ++ e)) := by
  refine ⟨rfl, rfl, ?_, ?_⟩
  · intro resp h hstatus
    have hne : resp.statusCode ≠ 200 := by omega
    simp [fetchUsageFromURL, h, hne]
  · intro resp e h h200 hdec
    simp [fetchUsageFromURL, h, h200, hdec]

/-- Claim C7 instance: a 404 response yields the status-and-body error. -/
theorem fetchUsageFromURL_request_and_errors_example :
    fetchUsageFromURL ("u") ("tok") (fun _ => Except.ok ⟨404, "denied"⟩)
      (fun _ => Except.error ("x")) =
      Except.error ("API returned status 404: denied") := by
  have h := (fetchUsageFromURL_request_and_errors ("u") ("tok")
    (fun _ => Except.ok ⟨404, "denied"⟩) (fun _ => Except.error ("x"))).2.2.1
    ⟨404, "denied"⟩ rfl (Or.inr (by decide))
  exact h.trans rfl

/-- Claim C8: when credential resolution or the usage fetch fails, the
process writes the prefixed error message to standard error and exits with
status 1 with nothing on standard output; when both succeed it prints
exactly one formatted line to standard output and exits with status 0. -/
theorem runMain_exit_behavior (credResult : Except String String)
    (fetchUsage : String → Except String UsageResponse)
    (parseRFC3339 : String → Option ℤ)
    (styleRender : String → String → String) (now : ℤ) :
    (∀ e, credResult = .error e →
      runMain credResult fetchUsage parseRFC3339 styleRender now =
        (1, [], ["Error: " ++ e])) ∧
    (∀ t e, credResult = .ok t → fetchUsage t = .error e →
      runMain credResult fetchUsage parseRFC3339 styleRender now =
        (1, [], ["Error: " ++ e])) ∧
    (∀ t usage, credResult = .ok t → fetchUsage t = .ok usage →
      runMain credResult fetchUsage parseRFC3339 styleRender now =
        (0, [formatStatusLine parseRFC3339 styleRender usage now], [])) := by
  refine ⟨?_, ?_, ?_⟩
  · intro e h
    simp [runMain, h]
  · intro t e h1 h2
    simp [runMain, h1, h2]
  · intro t usage h1 h2
    simp [runMain, h1, h2]

/-- Claim C8 instance: a failed credential resolution exits 1 with the
prefixed message on standard error and an empty standard output. -/
theorem runMain_exit_behavior_example :
    runMain (Except.error ("boom")) (fun _ => Except.error ("x"))
      (fun _ => none) (fun _ s => s) 0 = (1, [], ["Error: boom"]) := by
  have h := (runMain_exit_behavior (Except.error ("boom"))
    (fun _ => Except.error ("x")) (fun _ => none) (fun _ s => s) 0).1 ("boom") rfl
  exact h.trans rfl

/-- Claim C9: the formatted line is, in order, the labeled five-hour
gradient bar with its percentage, the labeled seven-day gradient bar with
its percentage, and one reset countdown, and the countdown is computed from
the five-hour bucket's reset timestamp: changing the seven-day bucket's
reset timestamp never changes the line. -/
theorem formatStatusLine_layout (parseRFC3339 : String → Option ℤ)
    (styleRender : String → String → String) (usage : UsageResponse) (now : ℤ) :
    formatStatusLine parseRFC3339 styleRender usage now =
      "5h " ++ createProgressBar usage.five_hour.utilization 10 ++ " " ++
        styleRender (getLabelStyle usage.five_hour.utilization)
          (toString (intTrunc usage.five_hour.utilization) ++ "%") ++
        " │ 7d " ++ createProgressBar usage.seven_day.utilization 10 ++ " " ++
        styleRender (getLabelStyle usage.seven_day.utilization)
          (toString (intTrunc usage.seven_day.utilization) ++ "%") ++
        " │ ⏱ " ++ formatTimeUntilReset parseRFC3339 usage.five_hour.resets_at now ∧
    ∀ r, formatStatusLine parseRFC3339 styleRender (setSevenDayReset usage r) now =
      formatStatusLine parseRFC3339 styleRender usage now :=
  ⟨rfl, fun _ => rfl⟩

/-- Claim C10: the numeric label is the integer truncation of the raw,
unclamped utilization, already taken on the 0 to 100 percent scale: 45.9
gives 45, the fractional-scale 0.45 gives 0, and 150 gives 150 even though
the adjacent bar is clamped to full. -/
theorem formatStatusLine_raw_label (parseRFC3339 : String → Option ℤ)
    (styleRender : String → String → String) (usage : UsageResponse) (now : ℤ) :
    (∃ pre post, formatStatusLine parseRFC3339 styleRender usage now =
      pre ++ styleRender (getLabelStyle usage.five_hour.utilization)
        (toString (intTrunc usage.five_hour.utilization) ++ "%") ++ post) ∧
    intTrunc (45.9 : ℚ) = 45 ∧ intTrunc (0.45 : ℚ) = 0 ∧
    intTrunc (150 : ℚ) = 150 ∧
    createProgressBar 150 10 = createProgressBar 100 10 := by
  refine ⟨⟨"5h " ++ createProgressBar usage.five_hour.utilization 10 ++ " ",
    " │ 7d " ++ createProgressBar usage.seven_day.utilization 10 ++ " " ++
      styleRender (getLabelStyle usage.seven_day.utilization)
        (toString (intTrunc usage.seven_day.utilization) ++ "%") ++
      " │ ⏱ " ++ formatTimeUntilReset parseRFC3339 usage.five_hour.resets_at now, ?_⟩,
    by norm_num [intTrunc], by norm_num [intTrunc], by norm_num [intTrunc],
    by norm_num [createProgressBar]⟩
  simp only [formatStatusLine, String.append_assoc]
